import Mathlib

/-!
Verification of the SQL validation and generation core of `SQL_Chatbot_V2`.

The development shallowly embeds the two Python modules the claims are
about:

* `app/validation/sql_validator.py` — `validate_sql` and its helper checks,
* `app/llm/sql_generator.py` — `SqlGenerator.generate_sql`, the structured
  renderer `_render_sql_from_structure`, `_ensure_single_statement` and the
  repair loop.

Strings are embedded as `List Char` (called `Str` below); every Python
regular expression used by the source is embedded as an explicit scanner
over `Str` with the same matching semantics on the character classes the
source uses (ASCII letters, digits, `_`, whitespace).  Python `set`s whose
iteration order the source only uses to join human-readable messages are
embedded as insertion-ordered duplicate-free lists.

External libraries are modelled from their documented behaviour:
`sqlparse.parse` as statement splitting at string-literal-aware top-level
semicolons, `json.loads` plus the dictionary-shape accesses of the renderer
as an abstract decoding function that either produces a well-typed
`StructuredQuerySpec` or fails, and the OpenAI client as an oracle mapping
the index of a request to the returned message content.
-/

/-- Python strings are embedded as lists of characters. -/
abbrev Str := List Char

/-- Coerces a Lean string literal into the `Str` embedding. -/
def str (s : String) : Str := s.toList

/-- A single quote character, written as a character literal. -/
def squote : Str := ['\'']

/-- Uppercases a string character-wise (Python `str.upper` on ASCII input). -/
def toUpperStr (s : Str) : Str := s.map Char.toUpper

/-- Lowercases a string character-wise (Python `str.lower` on ASCII input). -/
def toLowerStr (s : Str) : Str := s.map Char.toLower

/-- Whitespace recognized by Python `str.split()` / `str.strip()` on ASCII input. -/
def isPySpace (c : Char) : Bool :=
  c = ' ' || c = '\t' || c = '\n' || c = '\r' || c = '\x0b' || c = '\x0c'

/-- Whitespace matched by the regex class `\s` (ASCII). -/
def isRegexSpace (c : Char) : Bool := isPySpace c

/-- A character matched by the regex class `\w` (ASCII): letters, digits, underscore. -/
def isWordChar (c : Char) : Bool := c.isAlphanum || c = '_'

/-- Python `str.strip()`: removes leading and trailing whitespace. -/
def pyStrip (s : Str) : Str :=
  ((s.dropWhile isPySpace).reverse.dropWhile isPySpace).reverse

/-- Python `str.split()` with no separator: splits on whitespace runs, dropping
empty fields.  The accumulator carries the current word reversed. -/
def pySplitWsGo : Str → Str → List Str
  | [], acc => if acc.isEmpty then [] else [acc.reverse]
  | c :: t, acc =>
    if isPySpace c then
      if acc.isEmpty then pySplitWsGo t [] else acc.reverse :: pySplitWsGo t []
    else pySplitWsGo t (c :: acc)

/-- Python `str.split()` with no separator. -/
def pySplitWs (s : Str) : List Str := pySplitWsGo s []

/-- Python `sep.join(parts)`. -/
def joinSep (sep : Str) : List Str → Str
  | [] => []
  | [x] => x
  | x :: y :: t => x ++ sep ++ joinSep sep (y :: t)

/-- Python's substring test `pat in s`. -/
def pyIn (pat : Str) : Str → Bool
  | [] => pat.isEmpty
  | c :: t => pat.isPrefixOf (c :: t) || pyIn pat t

/-- Case-insensitive literal match: drops `pat` from the front of `s` comparing
characters up to ASCII case, as a pattern compiled with `re.IGNORECASE` does. -/
def dropLitCI : Str → Str → Option Str
  | [], s => some s
  | _ :: _, [] => none
  | p :: ps, c :: cs => if p.toUpper = c.toUpper then dropLitCI ps cs else none

/-- Consumes the regex `\s+`: one or more whitespace characters. -/
def spaces1 : Str → Option Str
  | [] => none
  | c :: t => if isRegexSpace c then some (t.dropWhile isRegexSpace) else none

/-- Word-boundary test for the character before the current scan position:
`\b` holds at the start of the string or after a non-word character. -/
def boundaryBefore : Option Char → Bool
  | none => true
  | some c => !(isWordChar c)

/-- Matches `pat` as a whole word at the head of `s`: the characters of `pat`
followed by a word boundary (end of string or a non-word character). -/
def wordAt : Str → Str → Bool
  | [], [] => true
  | [], c :: _ => !(isWordChar c)
  | _ :: _, [] => false
  | p :: ps, c :: cs => p = c && wordAt ps cs

/-- Scanner for the regex `\bPAT\b` where `PAT` is a word: tries every
position, tracking the previous character for the left boundary. -/
def hasWordGo (w : Str) : Option Char → Str → Bool
  | prev, [] => boundaryBefore prev && wordAt w []
  | prev, c :: t => (boundaryBefore prev && wordAt w (c :: t)) || hasWordGo w (some c) t

/-- Whole-word search `re.search(r'\bPAT\b', s)` for an alphanumeric `PAT`. -/
def hasWord (w s : Str) : Bool := hasWordGo w none s

/-- Body of the substitution `re.sub(r'--[^\r\n]*', '', sql)`: on seeing `--`,
drops characters up to (but excluding) the next carriage return or newline.
Fuel bounds the number of scan steps by the input length. -/
def stripLineCommentsGo : Nat → Str → Str
  | 0, s => s
  | _ + 1, [] => []
  | fuel + 1, '-' :: '-' :: rest =>
    stripLineCommentsGo fuel (rest.dropWhile (fun c => !(c = '\r' || c = '\n')))
  | fuel + 1, c :: rest => c :: stripLineCommentsGo fuel rest

/-- Removes single-line comments, as `re.sub(r'--[^\r\n]*', '', sql)` does. -/
def stripLineComments (s : Str) : Str := stripLineCommentsGo s.length s

/-- Finds the first `*/` and returns the remainder after it, if any. -/
def dropToClose : Str → Option Str
  | [] => none
  | '*' :: '/' :: t => some t
  | _ :: t => dropToClose t

/-- Body of `re.sub(r'/\*.*?\*/', '', sql, flags=re.DOTALL)`: each `/*` paired
with the nearest later `*/` is removed; an unclosed `/*` is left in place
(the non-greedy pattern then has no further match, since no `*/` remains). -/
def stripBlockCommentsGo : Nat → Str → Str
  | 0, s => s
  | _ + 1, [] => []
  | fuel + 1, '/' :: '*' :: rest =>
    match dropToClose rest with
    | some t => stripBlockCommentsGo fuel t
    | none => '/' :: '*' :: rest
  | fuel + 1, c :: rest => c :: stripBlockCommentsGo fuel rest

/-- Removes multi-line comments, as `re.sub(r'/\*.*?\*/', '', sql, re.DOTALL)` does. -/
def stripBlockComments (s : Str) : Str := stripBlockCommentsGo s.length s

/-- Embeds `_normalize_sql`: strip line comments, strip block comments,
collapse whitespace with `' '.join(sql.split())`, and strip. -/
def _normalize_sql (sql : Str) : Str :=
  pyStrip (joinSep (str " ") (pySplitWs (stripBlockComments (stripLineComments sql))))

/-- Embeds `_has_multiple_statements`: split on `;` and count the segments
that remain non-empty after stripping. -/
def _has_multiple_statements (sql : Str) : Bool :=
  (((List.splitOn ';' sql).map pyStrip).filter (fun stmt => !stmt.isEmpty)).length > 1

/-- The banned SQL operations, in the order they are written in the source
(a Python `set` literal; the order is only used to join message text). -/
def BANNED_OPERATIONS : List Str :=
  [str "INSERT", str "UPDATE", str "DELETE", str "ALTER", str "DROP", str "CREATE",
   str "MERGE", str "TRUNCATE", str "EXEC", str "EXECUTE", str "BULK", str "BACKUP",
   str "RESTORE", str "GRANT", str "REVOKE", str "DENY", str "DBCC", str "SHUTDOWN",
   str "KILL", str "CHECKPOINT", str "RECONFIGURE"]

/-- System object prefixes blocked by the validator. -/
def SYSTEM_OBJECTS : List Str :=
  [str "sys.", str "information_schema.", str "master.", str "msdb.",
   str "model.", str "tempdb."]

/-- Embeds `_check_banned_operations`: uppercase the input then search each
banned operation as a whole word (`\bOP\b`); returns the operations found. -/
def _check_banned_operations (sql : Str) : List Str :=
  let sql_upper := toUpperStr sql
  BANNED_OPERATIONS.filter (fun op => hasWord op sql_upper)

/-- Embeds `_starts_with_select`: the first whitespace-separated word of the
stripped, uppercased statement text must be `SELECT` or `WITH`. -/
def _starts_with_select (stmtText : Str) : Bool :=
  let sql_text := toUpperStr (pyStrip stmtText)
  match pySplitWs sql_text with
  | [] => false
  | first_word :: _ => first_word = str "SELECT" || first_word = str "WITH"

/-- Model of the external library call `sqlparse.parse`: splits the text into
statements at semicolons that lie outside single- or double-quoted literals,
each statement keeping its terminating semicolon; empty input parses to no
statements.  Only the text of the first statement is consumed by the
validator. -/
def sqlparseSplitGo : Option Char → Str → Str → List Str
  | _, acc, [] => if acc.isEmpty then [] else [acc.reverse]
  | none, acc, c :: t =>
    if c = ';' then (c :: acc).reverse :: sqlparseSplitGo none [] t
    else if c = '\'' then sqlparseSplitGo (some '\'') (c :: acc) t
    else if c = '"' then sqlparseSplitGo (some '"') (c :: acc) t
    else sqlparseSplitGo none (c :: acc) t
  | some q, acc, c :: t =>
    if c = q then sqlparseSplitGo none (c :: acc) t
    else sqlparseSplitGo (some q) (c :: acc) t

/-- Model of `sqlparse.parse` (see `sqlparseSplitGo`). -/
def sqlparseStatements (s : Str) : List Str := sqlparseSplitGo none [] s

/-- First character of the identifier class `[a-zA-Z_]`. -/
def identStart (c : Char) : Bool := c.isAlpha || c = '_'

/-- Subsequent identifier characters `[a-zA-Z0-9_]`. -/
def identChar (c : Char) : Bool := c.isAlpha || c.isDigit || c = '_'

/-- Consumes one identifier `[a-zA-Z_][a-zA-Z0-9_]*`, returning it and the rest. -/
def takeIdent : Str → Option (Str × Str)
  | [] => none
  | c :: t =>
    if identStart c then
      let sp := t.span identChar
      some (c :: sp.1, sp.2)
    else none

/-- Greedily extends an identifier with `(?:\.[a-zA-Z_][a-zA-Z0-9_]*)*`
segments.  Fuel bounds the number of segments by the remaining length. -/
def takeDottedGo : Nat → Str → Str → Str × Str
  | 0, acc, s => (acc, s)
  | fuel + 1, acc, '.' :: t =>
    (match takeIdent t with
     | some (id, rest) => takeDottedGo fuel (acc ++ '.' :: id) rest
     | none => (acc, '.' :: t))
  | _ + 1, acc, s => (acc, s)

/-- Consumes the capture group `[a-zA-Z_]\w*(?:\.[a-zA-Z_]\w*)*`. -/
def takeDotted (s : Str) : Option (Str × Str) :=
  match takeIdent s with
  | some (id, rest) => some (takeDottedGo rest.length id rest)
  | none => none

/-- Consumes the keyword part of an extraction pattern: each keyword matched
case-insensitively and followed by `\s+`. -/
def matchKws : List Str → Str → Option Str
  | [], s => some s
  | k :: ks, s =>
    match dropLitCI k s with
    | some r =>
      match spaces1 r with
      | some r2 => matchKws ks r2
      | none => none
    | none => none

/-- Attempts one of the source's table-reference patterns
`\bKW1\s+(KW2\s+)…([ident(.ident)*])\s*(?:[ident]\s*)?` at the head of `s`:
returns the captured dotted identifier and the rest of the input after the
whole match (the optional trailing alias included), mirroring how
`re.findall` resumes a non-overlapping scan. -/
def matchRef (kws : List Str) (s : Str) : Option (Str × Str) :=
  match matchKws kws s with
  | none => none
  | some r =>
    match takeDotted r with
    | none => none
    | some (cap, rest) =>
      let rest2 := rest.dropWhile isRegexSpace
      let rest3 :=
        match takeIdent rest2 with
        | some (_, r3) => r3.dropWhile isRegexSpace
        | none => rest2
      some (cap, rest3)

/-- Scanner behind `re.findall` for one table-reference pattern: tries every
position whose preceding character satisfies the `\b` boundary, collecting
group-1 captures left to right without overlap. -/
def scanRefsGo (kws : List Str) : Nat → Option Char → Str → List Str
  | 0, _, _ => []
  | _ + 1, _, [] => []
  | fuel + 1, prev, c :: t =>
    if boundaryBefore prev then
      match matchRef kws (c :: t) with
      | some (cap, rest) =>
        let consumed := (c :: t).take ((c :: t).length - rest.length)
        cap :: scanRefsGo kws fuel (match consumed.getLast? with
          | some d => some d
          | none => prev) rest
      | none => scanRefsGo kws fuel (some c) t
    else scanRefsGo kws fuel (some c) t

/-- All captures of one table-reference pattern over the statement text. -/
def scanRefs (kws : List Str) (s : Str) : List Str := scanRefsGo kws s.length none s

/-- Adds an element to a Python-set-as-ordered-list if not already present. -/
def setAdd (l : List Str) (x : Str) : List Str := if x ∈ l then l else l ++ [x]

/-- Scanner for the CTE pattern `\bWITH\s+([a-zA-Z_]\w*)\s+AS\s*\(` at one
position. -/
def matchCteWith (s : Str) : Option (Str × Str) :=
  match matchKws [str "WITH"] s with
  | none => none
  | some r =>
    match takeIdent r with
    | none => none
    | some (cap, rest) =>
      match spaces1 rest with
      | none => none
      | some r2 =>
        match dropLitCI (str "AS") r2 with
        | none => none
        | some r3 =>
          match r3.dropWhile isRegexSpace with
          | '(' :: r4 => some (cap, r4)
          | _ => none

/-- Scanner for the CTE pattern `,\s*([a-zA-Z_]\w*)\s+AS\s*\(` at one position. -/
def matchCteComma (s : Str) : Option (Str × Str) :=
  match s with
  | ',' :: r =>
    (match takeIdent (r.dropWhile isRegexSpace) with
     | none => none
     | some (cap, rest) =>
       match spaces1 rest with
       | none => none
       | some r2 =>
         match dropLitCI (str "AS") r2 with
         | none => none
         | some r3 =>
           match r3.dropWhile isRegexSpace with
           | '(' :: r4 => some (cap, r4)
           | _ => none)
  | _ => none

/-- Generic `re.findall` driver for the two CTE patterns.  `needsBoundary`
marks whether the pattern starts with `\b` (true for the `WITH` pattern,
false for the comma pattern). -/
def scanCteGo (pat : Str → Option (Str × Str)) (needsBoundary : Bool) :
    Nat → Option Char → Str → List Str
  | 0, _, _ => []
  | _ + 1, _, [] => []
  | fuel + 1, prev, c :: t =>
    if !needsBoundary || boundaryBefore prev then
      match pat (c :: t) with
      | some (cap, rest) =>
        let consumed := (c :: t).take ((c :: t).length - rest.length)
        cap :: scanCteGo pat needsBoundary fuel (match consumed.getLast? with
          | some d => some d
          | none => prev) rest
      | none => scanCteGo pat needsBoundary fuel (some c) t
    else scanCteGo pat needsBoundary fuel (some c) t

/-- Embeds `_extract_cte_names`: collects names from `WITH name AS (` and
`, name AS (` patterns into a set. -/
def _extract_cte_names (sqlText : Str) : List Str :=
  let matches1 := scanCteGo matchCteWith true sqlText.length none sqlText
  let matches2 := scanCteGo matchCteComma false sqlText.length none sqlText
  (matches1 ++ matches2).foldl setAdd []

/-- The keyword exclusion tuple of `_extract_table_references`. -/
def extractionKeywordExclusions : List Str :=
  [str "SELECT", str "WHERE", str "ORDER", str "GROUP", str "HAVING", str "AS", str "ON"]

/-- The keyword sequences of the seven table-reference patterns, in source order. -/
def tableRefPatterns : List (List Str) :=
  [[str "FROM"], [str "JOIN"], [str "INNER", str "JOIN"], [str "LEFT", str "JOIN"],
   [str "RIGHT", str "JOIN"], [str "FULL", str "JOIN"], [str "CROSS", str "JOIN"]]

/-- Embeds `_extract_table_references`: runs every pattern over the statement
text, filters out SQL keywords and declared CTE names, and accumulates the
remaining captures into a set. -/
def _extract_table_references (sqlText : Str) : List Str :=
  let cte_names := _extract_cte_names sqlText
  tableRefPatterns.foldl
    (fun references kws =>
      (scanRefs kws sqlText).foldl
        (fun references m =>
          if !m.isEmpty && toUpperStr m ∉ extractionKeywordExclusions then
            if toUpperStr m ∉ cte_names.map toUpperStr then setAdd references m
            else references
          else references)
        references)
    []

/-- A validation issue found in a SQL query (`ValidationIssue` dataclass). -/
structure ValidationIssue where
  code : Str
  message : Str
deriving DecidableEq, Repr

/-- Result of SQL validation (`ValidationResult` dataclass).  The Python
`Set[str]` of referenced objects is embedded as an insertion-ordered
duplicate-free list. -/
structure ValidationResult where
  ok : Bool
  issues : List ValidationIssue
  objects : List Str
deriving DecidableEq, Repr

/-- Embeds `_check_allowlist_violations`: extracted references not found in
the allowlist, comparing case-insensitively and also accepting `DBO.<name>`
for unqualified names. -/
def _check_allowlist_violations (references allowlist : List Str) : List Str :=
  let allowlist_upper := allowlist.map toUpperStr
  references.foldl
    (fun violations ref =>
      let ref_upper := toUpperStr ref
      if ref_upper ∉ allowlist_upper then
        if '.' ∉ ref_upper then
          if (str "DBO." ++ ref_upper) ∉ allowlist_upper then setAdd violations ref
          else violations
        else setAdd violations ref
      else violations)
    []

/-- Embeds `_check_system_object_violations`: references whose lowercase form
starts with one of the `SYSTEM_OBJECTS` prefixes. -/
def _check_system_object_violations (references : List Str) : List Str :=
  references.foldl
    (fun violations ref =>
      if SYSTEM_OBJECTS.any (fun sys_obj => sys_obj.isPrefixOf (toLowerStr ref)) then
        setAdd violations ref
      else violations)
    []

/-- Embeds `_check_cross_database_references`: references containing two or
more dots (three-part `database.schema.table` names). -/
def _check_cross_database_references (references : List Str) : List Str :=
  references.foldl
    (fun violations ref =>
      if (ref.filter (fun c => c = '.')).length ≥ 2 then setAdd violations ref
      else violations)
    []

/-- Matches the regex `TOP\s+\d+` at the head of `s` (boundary handled by the
caller). -/
def topNumAt (s : Str) : Bool :=
  match dropLitCI (str "TOP") s with
  | none => false
  | some r =>
    match spaces1 r with
    | none => false
    | some r2 =>
      match r2 with
      | c :: _ => c.isDigit
      | [] => false

/-- Scanner for `re.search(r'\bTOP\s+\d+', s)`. -/
def hasTopNumGo : Option Char → Str → Bool
  | _, [] => false
  | prev, c :: t => (boundaryBefore prev && topNumAt (c :: t)) || hasTopNumGo (some c) t

/-- Embeds `_check_deterministic_requirements`: `TOP n` or `OFFSET`+`FETCH`
without an `ORDER BY` anywhere in the uppercased statement text. -/
def _check_deterministic_requirements (stmtText : Str) : List ValidationIssue :=
  let sql_text := toUpperStr stmtText
  (if hasTopNumGo none sql_text && !pyIn (str "ORDER BY") sql_text then
    [⟨str "E_NO_ORDER_BY", str "TOP clause requires ORDER BY for deterministic results"⟩]
  else []) ++
  (if (pyIn (str "OFFSET") sql_text && pyIn (str "FETCH") sql_text)
      && !pyIn (str "ORDER BY") sql_text then
    [⟨str "E_NO_ORDER_BY", str "OFFSET/FETCH requires ORDER BY for deterministic results"⟩]
  else [])

/-- Scanner for `re.search(r'#\w+', s)`: a hash immediately followed by a
word character. -/
def hasTempTable : Str → Bool
  | [] => false
  | '#' :: c :: t => isWordChar c || hasTempTable (c :: t)
  | _ :: t => hasTempTable t

/-- Matches `EXEC\s*\(` at the head of `s`. -/
def execParenAt (s : Str) : Bool :=
  match dropLitCI (str "EXEC") s with
  | none => false
  | some r =>
    match r.dropWhile isRegexSpace with
    | '(' :: _ => true
    | _ => false

/-- Scanner for `re.search(r'\bEXEC\s*\(', s)`. -/
def hasExecParenGo : Option Char → Str → Bool
  | _, [] => false
  | prev, c :: t => (boundaryBefore prev && execParenAt (c :: t)) || hasExecParenGo (some c) t

/-- Matches `CROSS\s+JOIN\b` at the head of `s`. -/
def crossJoinAt (s : Str) : Bool :=
  match dropLitCI (str "CROSS") s with
  | none => false
  | some r =>
    match spaces1 r with
    | none => false
    | some r2 => wordAt (str "JOIN") r2

/-- Scanner for `re.search(r'\bCROSS\s+JOIN\b', s)`. -/
def hasCrossJoinGo : Option Char → Str → Bool
  | _, [] => false
  | prev, c :: t => (boundaryBefore prev && crossJoinAt (c :: t)) || hasCrossJoinGo (some c) t

/-- Embeds `_check_dangerous_patterns`: temp tables, dynamic `EXEC(`, and a
`CROSS JOIN` with no `WHERE` clause (the `W_CROSS_JOIN` warning). -/
def _check_dangerous_patterns (sql : Str) : List ValidationIssue :=
  let sql_upper := toUpperStr sql
  (if hasTempTable sql then
    [⟨str "E_TEMP_TABLE", str "Temporary tables are not allowed"⟩]
  else []) ++
  (if hasExecParenGo none sql_upper then
    [⟨str "E_DYNAMIC_SQL", str "Dynamic SQL execution is not allowed"⟩]
  else []) ++
  (if hasCrossJoinGo none sql_upper && !pyIn (str "WHERE") sql_upper then
    [⟨str "W_CROSS_JOIN", str "CROSS JOIN without WHERE clause may be expensive"⟩]
  else [])

/-- Matches `^SELECT\s+(KW1|KW2|…)\b` at the start of the uppercased text. -/
def selectThenKeyword (kws : List Str) (s : Str) : Bool :=
  match dropLitCI (str "SELECT") s with
  | none => false
  | some r =>
    match spaces1 r with
    | none => false
    | some r2 => kws.any (fun kw => wordAt kw r2)

/-- Matches `FROM\s+(WHERE|ORDER|GROUP|HAVING|$)` at the head of `s`; note the
source pattern has no `\b` after the keyword alternatives, so a prefix match
suffices, and `$` lets a trailing `FROM\s+` match as well. -/
def fromThenBadAt (s : Str) : Bool :=
  match dropLitCI (str "FROM") s with
  | none => false
  | some r =>
    match spaces1 r with
    | none => false
    | some r2 =>
      r2.isEmpty ||
        [str "WHERE", str "ORDER", str "GROUP", str "HAVING"].any
          (fun kw => kw.isPrefixOf r2)

/-- Scanner for `re.search(r'\bFROM\s+(WHERE|ORDER|GROUP|HAVING|$)', s)`. -/
def hasFromBadGo : Option Char → Str → Bool
  | _, [] => false
  | prev, c :: t => (boundaryBefore prev && fromThenBadAt (c :: t)) || hasFromBadGo (some c) t

/-- Matches `^SELECT\s+FROM\s+(WHERE|ORDER|GROUP|HAVING|$)` at the start. -/
def selectFromBad (s : Str) : Bool :=
  match dropLitCI (str "SELECT") s with
  | none => false
  | some r =>
    match spaces1 r with
    | none => false
    | some r2 => fromThenBadAt r2

/-- Embeds `_check_malformed_syntax`: heuristics for incomplete SELECT
statements, run on the uppercased, stripped statement text. -/
def _check_malformed_syntax (sql : Str) : List ValidationIssue :=
  let sql_upper := pyStrip (toUpperStr sql)
  if (str "SELECT").isPrefixOf sql_upper then
    if selectThenKeyword
        [str "FROM", str "WHERE", str "ORDER", str "GROUP", str "HAVING"] sql_upper then
      [⟨str "E_PARSE_ERROR", str "Malformed SELECT statement: missing column list"⟩]
    else if pyIn (str "FROM") sql_upper && hasFromBadGo none sql_upper then
      [⟨str "E_PARSE_ERROR", str "Malformed SELECT statement: missing table name after FROM"⟩]
    else if selectFromBad sql_upper then
      [⟨str "E_PARSE_ERROR",
        str "Malformed SELECT statement: missing column list and table name"⟩]
    else []
  else []

/-- Embeds `validate_sql`, parameterized by the outcome of the external
`sqlparse.parse` call on the normalized text: `Except.error e` models the
`except Exception` branch (an exception raised while parsing or analyzing
the statement, carrying the exception text), `Except.ok stmts` the list of
parsed statement texts.  The unused `max_rows` parameter of the source is
omitted (it is accepted and never read). -/
def validate_sql_with (parsed : Except Str (List Str)) (sql : Str)
    (allowlist : List Str) : ValidationResult :=
  if sql.isEmpty || (pyStrip sql).isEmpty then
    { ok := false
      issues := [⟨str "E_EMPTY_QUERY", str "SQL query cannot be empty"⟩]
      objects := [] }
  else
    let normalized_sql := _normalize_sql sql
    let issues1 :=
      if _has_multiple_statements normalized_sql then
        [(⟨str "E_MULTI_STMT",
           str "Multiple statements not allowed. Only single SELECT statements are permitted."⟩
          : ValidationIssue)]
      else []
    let banned_ops := _check_banned_operations normalized_sql
    let issues2 := issues1 ++
      (if !banned_ops.isEmpty then
        [(⟨str "E_NOT_SELECT",
           str "Operation not allowed: " ++ joinSep (str ", ") banned_ops ++
             str ". Only SELECT statements are permitted."⟩ : ValidationIssue)]
      else [])
    match parsed with
    | Except.error e =>
      let issues := issues2 ++ [⟨str "E_PARSE_ERROR", str "SQL parsing failed: " ++ e⟩]
      { ok := issues.isEmpty, issues := issues, objects := [] }
    | Except.ok [] =>
      { ok := false
        issues := issues2 ++ [⟨str "E_PARSE_ERROR", str "Unable to parse SQL query"⟩]
        objects := [] }
    | Except.ok (statement :: _) =>
      let issues3 := issues2 ++
        (if _starts_with_select statement then []
         else [(⟨str "E_NOT_SELECT",
                 str "Query must start with SELECT statement (WITH CTEs are allowed)"⟩
                : ValidationIssue)])
      let issues4 := issues3 ++ _check_malformed_syntax statement
      let referenced_objects := _extract_table_references statement
      let allowlist_violations := _check_allowlist_violations referenced_objects allowlist
      let issues5 := issues4 ++
        (if !allowlist_violations.isEmpty then
          [(⟨str "E_NOT_ALLOWLIST",
             str "Referenced objects not in allowlist: " ++
               joinSep (str ", ") allowlist_violations⟩ : ValidationIssue)]
        else [])
      let system_violations := _check_system_object_violations referenced_objects
      let issues6 := issues5 ++
        (if !system_violations.isEmpty then
          [(⟨str "E_SYSTEM_OBJECT",
             str "System objects not allowed: " ++ joinSep (str ", ") system_violations⟩
            : ValidationIssue)]
        else [])
      let cross_db_violations := _check_cross_database_references referenced_objects
      let issues7 := issues6 ++
        (if !cross_db_violations.isEmpty then
          [(⟨str "E_CROSS_DB",
             str "Cross-database references not allowed: " ++
               joinSep (str ", ") cross_db_violations⟩ : ValidationIssue)]
        else [])
      let issues8 := issues7 ++ _check_deterministic_requirements statement
      let issues9 := issues8 ++ _check_dangerous_patterns normalized_sql
      { ok := issues9.isEmpty, issues := issues9, objects := referenced_objects }

/-- Embeds `validate_sql` with the (never-raising) `sqlparse.parse` model
applied to the normalized text. -/
def validate_sql (sql : Str) (allowlist : List Str) : ValidationResult :=
  validate_sql_with (Except.ok (sqlparseStatements (_normalize_sql sql))) sql allowlist


/-- Pagination object of the structured output schema (`offset`, `fetch_next`
are JSON integers). -/
structure Pagination where
  offset : Int
  fetch_next : Int
deriving DecidableEq, Repr

/-- A table entry of the structured output (`name` required, `alias` optional). -/
structure TableSpec where
  name : Str
  «alias» : Option Str := none
deriving DecidableEq, Repr

/-- A column entry of the structured output (`name` required; `table`,
`alias`, `function` optional). -/
structure ColumnSpec where
  table : Option Str := none
  name : Str
  «alias» : Option Str := none
  function : Option Str := none
deriving DecidableEq, Repr

/-- A WHERE condition of the structured output. -/
structure WhereCond where
  column : Str
  operator : Str
  value : Str
  logical_connector : Option Str := none
deriving DecidableEq, Repr

/-- A join entry of the structured output. -/
structure JoinSpec where
  type : Str
  left_table : Str
  left_column : Str
  right_table : Str
  right_column : Str
deriving DecidableEq, Repr

/-- An ORDER BY entry of the structured output (`column` and `direction` required). -/
structure OrderBySpec where
  column : Str
  direction : Str
deriving DecidableEq, Repr

/-- The structured query representation the model is asked to return.  The
JSON schema marks `tables`, `columns`, `order_by` and `pagination` required,
matching the renderer's unconditional dictionary accesses. -/
structure StructuredQuerySpec where
  tables : List TableSpec
  columns : List ColumnSpec
  where_conditions : List WhereCond := []
  joins : List JoinSpec := []
  order_by : List OrderBySpec
  pagination : Pagination
deriving DecidableEq, Repr

/-- Python truthiness of an optional string field: the key is present and the
value is a non-empty string (`"table" in col and col["table"]`). -/
def optTruthy : Option Str → Bool
  | none => false
  | some s => !s.isEmpty

/-- Decimal digits of a natural number. -/
def natToStr (n : Nat) : Str := Nat.toDigits 10 n

/-- Python `str(int)`. -/
def intToStr : Int → Str
  | Int.ofNat n => natToStr n
  | Int.negSucc n => '-' :: natToStr (n + 1)

/-- Embeds `_render_sql_from_structure` on a well-typed spec.  On such input
the Python function raises no exception (every accessed key exists), so the
embedded function is total; failures of `json.loads` or of the dictionary
shape are part of the abstract decode step of `generate_sql`. -/
def _render_sql_from_structure (structure0 : StructuredQuerySpec) : Str :=
  let column_parts := structure0.columns.map (fun col =>
    let col_expr :=
      if optTruthy col.table then col.table.getD [] ++ str "." ++ col.name else col.name
    let col_expr :=
      if optTruthy col.function then
        col.function.getD [] ++ str "(" ++ col_expr ++ str ")"
      else col_expr
    if optTruthy col.«alias» then col_expr ++ str " AS " ++ col.«alias».getD [] else col_expr)
  let from_parts := structure0.tables.map (fun table =>
    if optTruthy table.«alias» then table.name ++ str " AS " ++ table.«alias».getD []
    else table.name)
  let sql_parts := [str "SELECT", str "  " ++ joinSep (str ", ") column_parts,
    str "FROM", str "  " ++ joinSep (str ", ") from_parts]
  let sql_parts := sql_parts ++
    (if !structure0.joins.isEmpty then
      structure0.joins.map (fun join =>
        str "  " ++ toUpperStr join.type ++ str " JOIN " ++ join.right_table ++
          str " ON " ++ join.left_table ++ str "." ++ join.left_column ++ str " = " ++
          join.right_table ++ str "." ++ join.right_column)
    else [])
  let sql_parts := sql_parts ++
    (if !structure0.where_conditions.isEmpty then
      let where_parts := structure0.where_conditions.enum.map (fun ic =>
        let condition_expr := ic.2.column ++ str " " ++ ic.2.operator ++ str " " ++ ic.2.value
        if ic.1 > 0 && optTruthy ic.2.logical_connector then
          ic.2.logical_connector.getD [] ++ str " " ++ condition_expr
        else condition_expr)
      [str "WHERE", str "  " ++ joinSep (str " ") where_parts]
    else [])
  let sql_parts := sql_parts ++
    [str "ORDER BY",
     str "  " ++ joinSep (str ", ")
       (structure0.order_by.map (fun order => order.column ++ str " " ++ toUpperStr order.direction))]
  let sql_parts := sql_parts ++
    [str "OFFSET " ++ intToStr structure0.pagination.offset ++ str " ROWS",
     str "FETCH NEXT " ++ intToStr structure0.pagination.fetch_next ++ str " ROWS ONLY"]
  joinSep (str "\n") sql_parts ++ str ";"

/-- Embeds `_ensure_single_statement`: strips code-fence markers, keeps only
the first `;`-separated statement, and ensures a trailing semicolon. -/
def _ensure_single_statement (sql : Str) : Str :=
  let sql := if (str "```sql").isPrefixOf sql then sql.drop 6 else sql
  let sql := if (str "```").isPrefixOf sql then sql.drop 3 else sql
  let sql := if (str "```").isSuffixOf sql then sql.take (sql.length - 3) else sql
  let sql := pyStrip sql
  let first_statement := pyStrip ((List.splitOn ';' sql).headD [])
  if !(str ";").isSuffixOf first_statement then first_statement ++ str ";"
  else first_statement

/-- Python `repr` of a quote-free string (the messages the validator builds
contain no quotes or escapes). -/
def pyRepr (s : Str) : Str := squote ++ s ++ squote

/-- Python `str` of a list of strings, e.g. `['a', 'b']`. -/
def pyReprStrList (l : List Str) : Str :=
  str "[" ++ joinSep (str ", ") (l.map pyRepr) ++ str "]"

/-- Python `str` of a list of `ValidationIssue` dataclasses, as the source
passes `str(validation_result.issues)` into the repair prompt. -/
def pyReprIssues (issues : List ValidationIssue) : Str :=
  str "[" ++
    joinSep (str ", ")
      (issues.map (fun i =>
        str "ValidationIssue(code=" ++ pyRepr i.code ++ str ", message=" ++
          pyRepr i.message ++ str ")")) ++
    str "]"

/-- Embeds `_build_repair_prompt`: maps validation issues and the error text
to repair constraints and assembles the repair prompt. -/
def _build_repair_prompt (original_query error_message : Str)
    (validation_issues : List Str) : Str :=
  let repair_constraints := validation_issues.foldl
    (fun acc issue =>
      if pyIn (str "ORDER BY") issue then
        acc ++ [str "Add ORDER BY clause with unique tiebreaker (primary key)"]
      else if pyIn (str "table") (toLowerStr issue)
          && pyIn (str "not allowed") (toLowerStr issue) then
        acc ++ [str "Use only allowed tables from the schema context"]
      else if pyIn (str "column") (toLowerStr issue) then
        acc ++ [str "Use only existing columns from the schema context"]
      else acc)
    []
  let repair_constraints := repair_constraints ++
    (if pyIn (str "Invalid column name") error_message then
      [str "Fix column name - check schema context for correct column names"]
    else if pyIn (str "Invalid object name") error_message then
      [str "Fix table name - use only allowed tables from schema context"]
    else if pyIn (str "ORDER BY") error_message then
      [str "Add proper ORDER BY clause - required for TOP and OFFSET/FETCH"]
    else [])
  let constraints_text :=
    if !repair_constraints.isEmpty then joinSep (str "\n• ") repair_constraints
    else str "Fix the SQL syntax error"
  str "The previous query had errors. Fix these issues:\n\nORIGINAL QUERY:\n" ++
    original_query ++
    str "\n\nERROR MESSAGE:\n" ++ error_message ++
    str "\n\nVALIDATION ISSUES:\n" ++ pyReprStrList validation_issues ++
    str "\n\nREPAIR CONSTRAINTS:\n• " ++ constraints_text ++
    str "\n\nGenerate the corrected T-SQL query following all the original requirements."

/-- Details of one repair round (`RepairAttempt` dataclass). -/
structure RepairAttempt where
  attempt_number : Nat
  original_error : Str
  repair_prompt : Str
  generated_sql : Str
  success : Bool
deriving DecidableEq, Repr

/-- One entry of the `repair_history` list placed in the result metadata:
the success path records a truncated `sql`, the exhaustion path a truncated
`error`. -/
structure RepairHistEntry where
  attempt : Nat
  success : Bool
  sql : Option Str := none
  error : Option Str := none
deriving DecidableEq, Repr

/-- Python truncation `s[:200] + "..." if len(s) > 200 else s`. -/
def truncate200 (s : Str) : Str :=
  if s.length > 200 then s.take 200 ++ str "..." else s

/-- Python truncation `s[:500] + "..." if len(s) > 500 else s`. -/
def truncate500 (s : Str) : Str :=
  if s.length > 500 then s.take 500 ++ str "..." else s

/-- The metadata dictionary of a `SqlGenResult`, with the keys the claims are
about.  The wall-clock fields (`generation_time_seconds`, `generated_at`),
the configured `model` name and the `correlation_id` are environment
dependent and omitted from the embedding; keys absent from a given code
path are `none`. -/
structure GenMeta where
  repair_attempts : Nat
  validation_passed : Bool
  structured_output : Bool := true
  error : Option Str := none
  sql_structure : Option StructuredQuerySpec := none
  raw_response : Option Str := none
  repair_history : Option (List RepairHistEntry) := none
deriving DecidableEq, Repr

/-- Result of the SQL generation process (`SqlGenResult` dataclass, minus the
wall-clock fields, see `GenMeta`). -/
structure SqlGenResult where
  sql : Str
  issues : List Str
  meta : GenMeta
deriving DecidableEq, Repr

/-- The repair loop of `SqlGenerator.generate_sql` (the `for attempt_num in
range(1, self.max_repair_attempts + 1)` loop), recursing over the list of
remaining attempt numbers.  `oracle n` is the content returned by the n-th
OpenAI request (request 0 being the initial structured one; each repair
round issues exactly one request). -/
def repairLoopGo (oracle : Nat → Str) (allowlist_set : List Str)
    (max_repair_attempts : Nat) :
    List Nat → Str → List Str → ValidationResult → List RepairAttempt → SqlGenResult
  | [], current_sql, issues, _, repair_attempts =>
    { sql := current_sql
      issues := issues
      meta := { repair_attempts := max_repair_attempts
                validation_passed := false
                repair_history := some (repair_attempts.map (fun attempt =>
                  { attempt := attempt.attempt_number
                    success := attempt.success
                    error := some (truncate200 attempt.original_error) })) } }
  | attempt_num :: rest, current_sql, issues, validation_result, repair_attempts =>
    let repair_prompt := _build_repair_prompt current_sql
      (pyReprIssues validation_result.issues)
      (validation_result.issues.map (fun issue => issue.message))
    let repaired_sql := oracle attempt_num
    if repaired_sql.isEmpty then
      repairLoopGo oracle allowlist_set max_repair_attempts rest current_sql issues
        validation_result
        (repair_attempts ++ [{ attempt_number := attempt_num
                               original_error := pyReprIssues validation_result.issues
                               repair_prompt := repair_prompt
                               generated_sql := []
                               success := false }])
    else
      let repaired_sql := _ensure_single_statement repaired_sql
      let repair_validation := validate_sql repaired_sql allowlist_set
      let repair_attempts := repair_attempts ++
        [{ attempt_number := attempt_num
           original_error := pyReprIssues validation_result.issues
           repair_prompt := repair_prompt
           generated_sql := repaired_sql
           success := repair_validation.ok }]
      if repair_validation.ok then
        { sql := repaired_sql
          issues := []
          meta := { repair_attempts := attempt_num
                    validation_passed := true
                    repair_history := some (repair_attempts.map (fun attempt =>
                      { attempt := attempt.attempt_number
                        success := attempt.success
                        sql := some (truncate200 attempt.generated_sql) })) } }
      else
        repairLoopGo oracle allowlist_set max_repair_attempts rest repaired_sql
          (issues ++ repair_validation.issues.map (fun issue => issue.message))
          repair_validation repair_attempts

/-- Embeds `SqlGenerator.generate_sql`.  `oracle` models the OpenAI client
(content of the n-th request's response; the retry wrapper's transport
exceptions and timeouts lead to fixed error results orthogonal to the
claims settled here and are not modelled).  `decode` models `json.loads`
applied to the structured response followed by the dictionary-shape
accesses of `_render_sql_from_structure`: `Except.error e` covers both a
`json.JSONDecodeError` and the `ValueError` re-raised by the renderer, the
two exception types the source catches in one branch. -/
def generate_sql (oracle : Nat → Str) (decode : Str → Except Str StructuredQuerySpec)
    (allowed_tables : List Str) (max_repair_attempts : Nat) : SqlGenResult :=
  let response_content := oracle 0
  if response_content.isEmpty then
    { sql := []
      issues := [str "Empty response from OpenAI API"]
      meta := { repair_attempts := 0
                validation_passed := false
                error := some (str "empty_response") } }
  else
    match decode response_content with
    | Except.error e =>
      { sql := []
        issues := [str "Failed to parse structured output: " ++ e]
        meta := { repair_attempts := 0
                  validation_passed := false
                  error := some (str "parse_error")
                  raw_response := some (truncate500 response_content) } }
    | Except.ok structure0 =>
      let generated_sql := _ensure_single_statement (_render_sql_from_structure structure0)
      let allowlist_set := allowed_tables
      let validation_result := validate_sql generated_sql allowlist_set
      if validation_result.ok then
        { sql := generated_sql
          issues := []
          meta := { repair_attempts := 0
                    validation_passed := true
                    sql_structure := some structure0 } }
      else
        repairLoopGo oracle allowlist_set max_repair_attempts
          (List.range' 1 max_repair_attempts) generated_sql
          (validation_result.issues.map (fun issue => issue.message))
          validation_result []

/-- The claim C1 instance: a query whose only defect is a `CROSS JOIN`
without a `WHERE` clause. -/
def crossJoinQuery : Str := str "SELECT * FROM dbo.A CROSS JOIN dbo.B"

/-- C1: the code evaluated at the failing input.  The spec says `ok` is true
iff the issue list contains zero fatal codes with `W_CROSS_JOIN` the only
non-fatal code, so this query — whose only issue is `W_CROSS_JOIN` — should
validate with `ok = true`; the source instead computes
`ok = len(issues) == 0`, so every issue, the warning included, flips `ok`
to false. -/
theorem C1_cross_join_only_warning_yet_not_ok :
    validate_sql crossJoinQuery [str "dbo.A", str "dbo.B"] =
      { ok := false
        issues := [⟨str "W_CROSS_JOIN", str "CROSS JOIN without WHERE clause may be expensive"⟩]
        objects := [str "dbo.A", str "dbo.B"] } := by
  decide

/-- C2: comments are stripped before the banned-keyword scan, so both
`DROP TABLE T` and `/* */ DROP TABLE T` yield, for every allowlist, a result
with `ok = false` containing an `E_NOT_SELECT` issue whose message mentions
`DROP`. -/
theorem C2_drop_rejected_despite_comment_wrapping (A : List Str) :
    ((validate_sql (str "DROP TABLE T") A).ok = false
      ∧ ∃ i ∈ (validate_sql (str "DROP TABLE T") A).issues,
          i.code = str "E_NOT_SELECT" ∧ pyIn (str "DROP") i.message = true)
    ∧ ((validate_sql (str "/* */ DROP TABLE T") A).ok = false
      ∧ ∃ i ∈ (validate_sql (str "/* */ DROP TABLE T") A).issues,
          i.code = str "E_NOT_SELECT" ∧ pyIn (str "DROP") i.message = true) := by
  have h1 : validate_sql (str "DROP TABLE T") A =
      { ok := false
        issues :=
          [⟨str "E_NOT_SELECT",
            str "Operation not allowed: DROP. Only SELECT statements are permitted."⟩,
           ⟨str "E_NOT_SELECT",
            str "Query must start with SELECT statement (WITH CTEs are allowed)"⟩]
        objects := [] } := rfl
  have h2 : validate_sql (str "/* */ DROP TABLE T") A =
      { ok := false
        issues :=
          [⟨str "E_NOT_SELECT",
            str "Operation not allowed: DROP. Only SELECT statements are permitted."⟩,
           ⟨str "E_NOT_SELECT",
            str "Query must start with SELECT statement (WITH CTEs are allowed)"⟩]
        objects := [] } := rfl
  refine ⟨⟨by rw [h1], ?_⟩, ⟨by rw [h2], ?_⟩⟩
  · exact ⟨_, by rw [h1]; exact List.Mem.head _, rfl, by decide⟩
  · exact ⟨_, by rw [h2]; exact List.Mem.head _, rfl, by decide⟩

/-- The claim C9 instance: a syntactically single SELECT whose only semicolon
sits inside a string literal. -/
def semicolonLiteralQuery : Str :=
  str "SELECT " ++ squote ++ str ";" ++ squote ++ str " AS c FROM dbo.T ORDER BY c"

/-- C9: the multi-statement check splits the comment-stripped text on every
`;` without recognizing string literals, so this query — which the
(string-literal-aware) parser model sees as one statement — is rejected with
`E_MULTI_STMT` and `ok = false`. -/
theorem C9_semicolon_in_literal_triggers_multi_stmt :
    (sqlparseStatements (_normalize_sql semicolonLiteralQuery)).length = 1
    ∧ _has_multiple_statements (_normalize_sql semicolonLiteralQuery) = true
    ∧ (validate_sql semicolonLiteralQuery [str "dbo.T"]).ok = false
    ∧ ∃ i ∈ (validate_sql semicolonLiteralQuery [str "dbo.T"]).issues,
        i.code = str "E_MULTI_STMT" := by
  decide

/-- Adding to a set-as-list never yields the empty list. -/
theorem setAdd_ne_nil (acc : List Str) (x : Str) : setAdd acc x ≠ [] := by
  by_cases hx : x ∈ acc
  · simp only [setAdd, if_pos hx]
    exact List.ne_nil_of_mem hx
  · simp only [setAdd, if_neg hx]
    simp

/-- Members of `setAdd acc x` come from `acc` or are `x` itself. -/
theorem mem_setAdd {acc : List Str} {x r : Str} (h : r ∈ setAdd acc x) : r ∈ acc ∨ r = x := by
  by_cases hx : x ∈ acc
  · rw [setAdd, if_pos hx] at h
    exact Or.inl h
  · rw [setAdd, if_neg hx] at h
    simpa using List.mem_append.mp h

/-- A list with a member is not empty. -/
theorem isEmpty_false_of_mem {α} (a : α) (l : List α) (h : a ∈ l) : l.isEmpty = false := by
  cases l with
  | nil => cases h
  | cons b t => rfl

/-- The guarded set-union fold preserves non-emptiness of the accumulator. -/
theorem foldl_guard_setAdd_ne_nil_of_acc (p : Str → Bool) (l acc : List Str)
    (hacc : acc ≠ []) :
    l.foldl (fun violations ref => if p ref then setAdd violations ref else violations) acc ≠ [] := by
  induction l generalizing acc with
  | nil => simpa using hacc
  | cons y t ih =>
    simp only [List.foldl_cons]
    apply ih
    split
    · exact setAdd_ne_nil _ _
    · exact hacc

/-- The guarded set-union fold is non-empty whenever some element of the
list satisfies the guard. -/
theorem foldl_guard_setAdd_ne_nil (p : Str → Bool) (l : List Str) (acc : List Str)
    (r : Str) (hr : r ∈ l) (hp : p r = true) :
    l.foldl (fun violations ref => if p ref then setAdd violations ref else violations) acc ≠ [] := by
  induction l generalizing acc with
  | nil => cases hr
  | cons x t ih =>
    simp only [List.foldl_cons]
    rcases List.mem_cons.mp hr with h | h
    · subst h
      rw [if_pos hp]
      exact foldl_guard_setAdd_ne_nil_of_acc p t (setAdd acc r) (setAdd_ne_nil acc r)
    · exact ih _ h

/-- C3: for every allowlist — including one containing the offending name —
if the extracted object references of the parsed statement include a name
whose lowercase form starts with a system prefix, `validate_sql` reports a
fatal `E_SYSTEM_OBJECT` issue and returns `ok = false`; the system-object
check runs independently of, and in addition to, the allowlist check. -/
theorem C3_system_object_always_fatal (sql : Str) (A : List Str)
    (statement : Str) (rest : List Str) (r : Str)
    (hstrip : pyStrip sql ≠ [])
    (hparse : sqlparseStatements (_normalize_sql sql) = statement :: rest)
    (hmem : r ∈ _extract_table_references statement)
    (hsys : SYSTEM_OBJECTS.any (fun sys_obj => sys_obj.isPrefixOf (toLowerStr r)) = true) :
    (validate_sql sql A).ok = false
    ∧ ∃ i ∈ (validate_sql sql A).issues, i.code = str "E_SYSTEM_OBJECT" := by
  have hsv : _check_system_object_violations (_extract_table_references statement) ≠ [] := by
    unfold _check_system_object_violations
    exact foldl_guard_setAdd_ne_nil _ _ _ r hmem hsys
  have hsqlne : sql ≠ [] := by
    intro h
    subst h
    exact hstrip rfl
  have hcond : (sql.isEmpty || (pyStrip sql).isEmpty) = false := by
    simp [List.isEmpty_iff, hsqlne, hstrip]
  unfold validate_sql
  rw [hparse]
  unfold validate_sql_with
  rw [hcond]
  simp only [Bool.false_eq_true, if_false]
  have hcnd : (!(_check_system_object_violations (_extract_table_references statement)).isEmpty)
      = true := by
    simpa [List.isEmpty_iff] using hsv
  simp only [hcnd, eq_self_iff_true, if_true]
  refine ⟨isEmpty_false_of_mem
      ⟨str "E_SYSTEM_OBJECT",
        str "System objects not allowed: " ++
          joinSep (str ", ") (_check_system_object_violations (_extract_table_references statement))⟩
      _ ?_,
    ⟨⟨str "E_SYSTEM_OBJECT",
      str "System objects not allowed: " ++
        joinSep (str ", ") (_check_system_object_violations (_extract_table_references statement))⟩,
     ?_, rfl⟩⟩
  all_goals simp only [List.mem_append, List.mem_singleton]
  all_goals tauto

/-- Inner extraction fold: every accumulated reference survives the CTE
exclusion guard. -/
theorem mem_extract_inner (cte_names : List Str) (ms acc : List Str)
    (hacc : ∀ x ∈ acc, toUpperStr x ∉ cte_names.map toUpperStr) :
    ∀ x ∈ ms.foldl
        (fun references m =>
          if !m.isEmpty && toUpperStr m ∉ extractionKeywordExclusions then
            if toUpperStr m ∉ cte_names.map toUpperStr then setAdd references m
            else references
          else references)
        acc,
      toUpperStr x ∉ cte_names.map toUpperStr := by
  induction ms generalizing acc with
  | nil => simpa using hacc
  | cons m t ih =>
    simp only [List.foldl_cons]
    apply ih
    split
    · split
      · intro x hx
        rcases mem_setAdd hx with h | h
        · exact hacc x h
        · subst h
          assumption
      · exact hacc
    · exact hacc

/-- Outer extraction fold over the seven patterns: every accumulated
reference survives the CTE exclusion guard. -/
theorem mem_extract_outer (sqlText : Str) (cte_names : List Str)
    (pats : List (List Str)) (acc : List Str)
    (hacc : ∀ x ∈ acc, toUpperStr x ∉ cte_names.map toUpperStr) :
    ∀ x ∈ pats.foldl
        (fun references kws =>
          (scanRefs kws sqlText).foldl
            (fun references m =>
              if !m.isEmpty && toUpperStr m ∉ extractionKeywordExclusions then
                if toUpperStr m ∉ cte_names.map toUpperStr then setAdd references m
                else references
              else references)
            references)
        acc,
      toUpperStr x ∉ cte_names.map toUpperStr := by
  induction pats generalizing acc with
  | nil => simpa using hacc
  | cons kws t ih =>
    simp only [List.foldl_cons]
    intro x hx
    exact ih _ (mem_extract_inner cte_names (scanRefs kws sqlText) acc hacc) x hx

/-- No extracted table reference matches a declared CTE name (case-insensitively). -/
theorem extract_excludes_ctes (sqlText : Str) :
    ∀ x ∈ _extract_table_references sqlText,
      toUpperStr x ∉ (_extract_cte_names sqlText).map toUpperStr := by
  unfold _extract_table_references
  exact mem_extract_outer sqlText (_extract_cte_names sqlText) tableRefPatterns []
    (by intro x hx; cases hx)

/-- The claim C4 instance: a CTE declared with `WITH ... AS (` and then
selected from. -/
def cteQuery : Str := str "WITH cte AS (SELECT * FROM T) SELECT * FROM cte ORDER BY x"

set_option maxHeartbeats 2000000 in
/-- C4: names declared as CTEs are excluded from object extraction and never
reported as allowlist violations; validating the CTE query against
allowlist `{T}` returns `ok = true` with no `E_NOT_ALLOWLIST` issue. -/
theorem C4_cte_names_excluded_from_allowlist_check :
    (∀ sqlText x, x ∈ _extract_table_references sqlText →
        toUpperStr x ∉ (_extract_cte_names sqlText).map toUpperStr)
    ∧ (validate_sql cteQuery [str "T"]).ok = true
    ∧ ∀ i ∈ (validate_sql cteQuery [str "T"]).issues, i.code ≠ str "E_NOT_ALLOWLIST" := by
  refine ⟨fun t x hx => extract_excludes_ctes t x hx, ?_, ?_⟩
  · decide
  · decide

set_option maxHeartbeats 2000000 in
/-- Witness for C4 at the concrete CTE query and the extracted name `T`. -/
theorem C4_witness :
    (str "T") ∈ _extract_table_references cteQuery
    ∧ toUpperStr (str "T") ∉ (_extract_cte_names cteQuery).map toUpperStr :=
  ⟨by decide, C4_cte_names_excluded_from_allowlist_check.1 cteQuery (str "T") (by decide)⟩

/-- C8: `validate_sql` is total — for every parser outcome it returns a
well-formed `ValidationResult` whose `ok` equals the emptiness of its
issues — and any failure raised while parsing or analyzing the statement is
caught and reported as an `E_PARSE_ERROR` issue carrying the exception
text. -/
theorem C8_parse_failure_reported_not_raised (sql : Str) (A : List Str) (e : Str) :
    (∀ parsed, (validate_sql_with parsed sql A).ok
        = (validate_sql_with parsed sql A).issues.isEmpty)
    ∧ validate_sql sql A
        = validate_sql_with (Except.ok (sqlparseStatements (_normalize_sql sql))) sql A
    ∧ (pyStrip sql ≠ [] →
        (validate_sql_with (Except.error e) sql A).ok = false
        ∧ ∃ i ∈ (validate_sql_with (Except.error e) sql A).issues,
            i.code = str "E_PARSE_ERROR" ∧ i.message = str "SQL parsing failed: " ++ e) := by
  refine ⟨?_, rfl, ?_⟩
  · intro parsed
    cases parsed with
    | error e2 =>
      unfold validate_sql_with
      split
      · rfl
      · dsimp only
    | ok stmts =>
      cases stmts with
      | nil =>
        unfold validate_sql_with
        split
        · rfl
        · dsimp only
          simp
      | cons s t =>
        unfold validate_sql_with
        split
        · rfl
        · dsimp only
  · intro hstrip
    have hsqlne : sql ≠ [] := by
      intro h
      subst h
      exact hstrip rfl
    have hcond : (sql.isEmpty || (pyStrip sql).isEmpty) = false := by
      simp [List.isEmpty_iff, hsqlne, hstrip]
    unfold validate_sql_with
    rw [hcond]
    simp only [Bool.false_eq_true, if_false]
    constructor
    · simp
    · refine ⟨⟨str "E_PARSE_ERROR", str "SQL parsing failed: " ++ e⟩, ?_, rfl, rfl⟩
      simp

/-- Witness for C8 at a concrete non-empty query and exception text. -/
theorem C8_witness :
    pyStrip (str "SELECT 1") ≠ []
    ∧ ((validate_sql_with (Except.error (str "boom")) (str "SELECT 1") []).ok = false
      ∧ ∃ i ∈ (validate_sql_with (Except.error (str "boom")) (str "SELECT 1") []).issues,
          i.code = str "E_PARSE_ERROR"
          ∧ i.message = str "SQL parsing failed: " ++ str "boom") :=
  ⟨by decide,
   (C8_parse_failure_reported_not_raised (str "SELECT 1") [] (str "boom")).2.2 (by decide)⟩

/-- The claim C3 witness instance: a query referencing `sys.objects`. -/
def sysQuery : Str := str "SELECT name FROM sys.objects ORDER BY name"

set_option maxHeartbeats 2000000 in
/-- Witness for C3 at `sys.objects` with an allowlist that contains the
offending name. -/
theorem C3_witness :
    (pyStrip sysQuery ≠ []
      ∧ sqlparseStatements (_normalize_sql sysQuery) = sysQuery :: []
      ∧ (str "sys.objects") ∈ _extract_table_references sysQuery
      ∧ (SYSTEM_OBJECTS.any fun sys_obj => sys_obj.isPrefixOf (toLowerStr (str "sys.objects"))) = true)
    ∧ ((validate_sql sysQuery [str "sys.objects"]).ok = false
      ∧ ∃ i ∈ (validate_sql sysQuery [str "sys.objects"]).issues,
          i.code = str "E_SYSTEM_OBJECT") :=
  ⟨⟨by decide, by decide, by decide, by decide⟩,
   C3_system_object_always_fatal sysQuery [str "sys.objects"] sysQuery [] (str "sys.objects")
     (by decide) (by decide) (by decide) (by decide)⟩

/-- A list is a prefix of itself extended by anything. -/
theorem isPrefixOf_self_append (l t : Str) : l.isPrefixOf (l ++ t) = true := by
  induction l with
  | nil => simp [List.isPrefixOf]
  | cons c l ih => simp [List.isPrefixOf, ih]

/-- The pattern is found at the head of `p ++ t`. -/
theorem pyIn_self_append (p t : Str) : pyIn p (p ++ t) = true := by
  cases p with
  | nil =>
    cases t with
    | nil => rfl
    | cons c t2 => simp [pyIn, List.isPrefixOf]
  | cons c p2 =>
    have h := isPrefixOf_self_append (c :: p2) t
    show (List.isPrefixOf (c :: p2) ((c :: p2) ++ t) || pyIn (c :: p2) (p2 ++ t)) = true
    simp [h]

/-- Substring containment is preserved by prepending text. -/
theorem pyIn_append_right (p s t : Str) (h : pyIn p t = true) : pyIn p (s ++ t) = true := by
  induction s with
  | nil => simpa using h
  | cons c s2 ih => simp [pyIn, ih]

/-- Joining a concatenation of two non-empty part lists splits at the boundary. -/
theorem joinSep_append (sep : Str) (l m : List Str) (hl : l ≠ []) (hm : m ≠ []) :
    joinSep sep (l ++ m) = joinSep sep l ++ sep ++ joinSep sep m := by
  induction l with
  | nil => exact absurd rfl hl
  | cons x l ih =>
    cases l with
    | nil =>
      cases m with
      | nil => exact absurd rfl hm
      | cons y t => simp [joinSep]
    | cons y t =>
      have h2 := ih (by simp)
      calc joinSep sep (x :: y :: t ++ m)
          = x ++ sep ++ joinSep sep (y :: t ++ m) := rfl
        _ = x ++ sep ++ (joinSep sep (y :: t) ++ sep ++ joinSep sep m) := by
            rw [show (y :: t ++ m : List Str) = (y :: t) ++ m from rfl, h2]
        _ = joinSep sep (x :: y :: t) ++ sep ++ joinSep sep m := by
            show _ = (x ++ sep ++ joinSep sep (y :: t)) ++ sep ++ joinSep sep m
            simp [List.append_assoc]

/-- Uppercasing distributes over concatenation. -/
theorem toUpperStr_append (a b : Str) : toUpperStr (a ++ b) = toUpperStr a ++ toUpperStr b := by
  simp [toUpperStr]

/-- The rendered SQL of any spec splits into a prefix followed by the fixed
`ORDER BY`/`OFFSET`/`FETCH` tail the renderer always emits. -/
theorem render_decomposition (sep : Str) (o2 p1 p2 : Str) (X2 : List Str) (hX2 : X2 ≠ []) :
    ∃ pre, joinSep sep ((X2 ++ [str "ORDER BY", o2]) ++ [p1, p2]) ++ str ";"
      = pre ++ (str "ORDER BY" ++ (sep ++ (o2 ++ (sep ++ (p1 ++ (sep ++ (p2 ++ str ";"))))))) := by
  refine ⟨joinSep sep X2 ++ sep, ?_⟩
  rw [List.append_assoc]
  rw [joinSep_append sep X2 ([str "ORDER BY", o2] ++ [p1, p2]) hX2 (by simp)]
  simp [joinSep, List.append_assoc]

/-- C7: for every `StructuredQuerySpec` with a non-empty `order_by` list and
its (required) pagination object, the rendered SQL contains an `ORDER BY`
clause emitted before `OFFSET ... ROWS` and `FETCH NEXT ... ROWS ONLY`, so
the validator's determinism check on the rendered text returns no
`E_NO_ORDER_BY` issue. -/
theorem C7_render_always_orders (s : StructuredQuerySpec) (h : s.order_by ≠ []) :
    (∃ pre, _render_sql_from_structure s
        = pre ++ (str "ORDER BY" ++ (str "\n" ++
            ((str "  " ++ joinSep (str ", ")
                (s.order_by.map (fun order => order.column ++ str " " ++ toUpperStr order.direction))) ++
              (str "\n" ++
                ((str "OFFSET " ++ intToStr s.pagination.offset ++ str " ROWS") ++
                  (str "\n" ++
                    ((str "FETCH NEXT " ++ intToStr s.pagination.fetch_next ++ str " ROWS ONLY") ++
                      str ";"))))))))
    ∧ _check_deterministic_requirements (_render_sql_from_structure s) = [] := by
  have hdecomp : ∃ pre, _render_sql_from_structure s
      = pre ++ (str "ORDER BY" ++ (str "\n" ++
          ((str "  " ++ joinSep (str ", ")
              (s.order_by.map (fun order => order.column ++ str " " ++ toUpperStr order.direction))) ++
            (str "\n" ++
              ((str "OFFSET " ++ intToStr s.pagination.offset ++ str " ROWS") ++
                (str "\n" ++
                  ((str "FETCH NEXT " ++ intToStr s.pagination.fetch_next ++ str " ROWS ONLY") ++
                    str ";"))))))) := by
    unfold _render_sql_from_structure
    dsimp only
    exact render_decomposition (str "\n") _ _ _ _ (by simp)
  refine ⟨hdecomp, ?_⟩
  obtain ⟨pre, hpre⟩ := hdecomp
  have hup : toUpperStr (str "ORDER BY") = str "ORDER BY" := by decide
  have hOB : pyIn (str "ORDER BY") (toUpperStr (_render_sql_from_structure s)) = true := by
    rw [hpre, toUpperStr_append, toUpperStr_append, hup]
    exact pyIn_append_right _ _ _ (pyIn_self_append _ _)
  unfold _check_deterministic_requirements
  dsimp only
  rw [hOB]
  simp

/-- Specification-level recomputation of the candidate SQL left standing
after a sequence of repair rounds: an empty model response leaves the
candidate unchanged, a non-empty one replaces it. -/
def finalCandidateSql (oracle : Nat → Str) (init : Str) (rounds : List Nat) : Str :=
  rounds.foldl
    (fun current n =>
      if (oracle n).isEmpty then current else _ensure_single_statement (oracle n))
    init

/-- Specification-level recomputation of the issue messages accumulated over
a sequence of failing repair rounds. -/
def accumulatedIssueMessages (oracle : Nat → Str) (A : List Str) (init : List Str)
    (rounds : List Nat) : List Str :=
  rounds.foldl
    (fun msgs n =>
      if (oracle n).isEmpty then msgs
      else msgs ++ (validate_sql (_ensure_single_statement (oracle n)) A).issues.map
        (fun issue => issue.message))
    init

/-- If every remaining round returns an empty response or fails validation,
the repair loop runs them all and returns the exhaustion result: the last
candidate SQL, the accumulated messages, `validation_passed = false`,
`repair_attempts = max_repair_attempts`, and one history record per round. -/
theorem repairLoop_exhaustion (oracle : Nat → Str) (A : List Str) (maxR : Nat)
    (rounds : List Nat) :
    ∀ (cur : Str) (iss : List Str) (v : ValidationResult) (atts : List RepairAttempt),
      (∀ n ∈ rounds, (oracle n).isEmpty = true
          ∨ (validate_sql (_ensure_single_statement (oracle n)) A).ok = false) →
      ∃ newAtts : List RepairAttempt,
        repairLoopGo oracle A maxR rounds cur iss v atts
          = { sql := finalCandidateSql oracle cur rounds
              issues := accumulatedIssueMessages oracle A iss rounds
              meta := { repair_attempts := maxR
                        validation_passed := false
                        repair_history := some ((atts ++ newAtts).map (fun attempt =>
                          { attempt := attempt.attempt_number
                            success := attempt.success
                            error := some (truncate200 attempt.original_error) })) } }
        ∧ newAtts.map (fun attempt => attempt.attempt_number) = rounds
        ∧ ∀ attempt ∈ newAtts, attempt.success = false := by
  induction rounds with
  | nil =>
    intro cur iss v atts _
    refine ⟨[], ?_, rfl, by intro a ha; cases ha⟩
    simp [repairLoopGo, finalCandidateSql, accumulatedIssueMessages]
  | cons n ns ih =>
    intro cur iss v atts hall
    have hn := hall n (List.mem_cons_self n ns)
    have hns : ∀ m ∈ ns, (oracle m).isEmpty = true
        ∨ (validate_sql (_ensure_single_statement (oracle m)) A).ok = false :=
      fun m hm => hall m (List.mem_cons_of_mem n hm)
    by_cases hemp : (oracle n).isEmpty = true
    · have hstep : repairLoopGo oracle A maxR (n :: ns) cur iss v atts
          = repairLoopGo oracle A maxR ns cur iss v
              (atts ++ [{ attempt_number := n
                          original_error := pyReprIssues v.issues
                          repair_prompt := _build_repair_prompt cur (pyReprIssues v.issues)
                            (v.issues.map (fun issue => issue.message))
                          generated_sql := []
                          success := false }]) := by
        simp only [repairLoopGo, hemp, if_true]
      obtain ⟨newAtts, heq, hmap, hsucc⟩ := ih cur iss v
        (atts ++ [{ attempt_number := n
                    original_error := pyReprIssues v.issues
                    repair_prompt := _build_repair_prompt cur (pyReprIssues v.issues)
                      (v.issues.map (fun issue => issue.message))
                    generated_sql := []
                    success := false }]) hns
      refine ⟨{ attempt_number := n
                original_error := pyReprIssues v.issues
                repair_prompt := _build_repair_prompt cur (pyReprIssues v.issues)
                  (v.issues.map (fun issue => issue.message))
                generated_sql := []
                success := false } :: newAtts, ?_, ?_, ?_⟩
      · rw [hstep, heq]
        have hnil : oracle n = [] := List.isEmpty_iff.mp hemp
        have hcand : finalCandidateSql oracle cur (n :: ns) = finalCandidateSql oracle cur ns := by
          simp [finalCandidateSql, hnil]
        have hacc : accumulatedIssueMessages oracle A iss (n :: ns)
            = accumulatedIssueMessages oracle A iss ns := by
          simp [accumulatedIssueMessages, hnil]
        rw [hcand, hacc, List.append_assoc]
        rfl
      · simpa using hmap
      · intro a ha
        rcases List.mem_cons.mp ha with h | h
        · rw [h]
        · exact hsucc a h
    · have hempF : (oracle n).isEmpty = false := by
        cases hc : (oracle n).isEmpty
        · rfl
        · exact absurd hc hemp
      have hvn : (validate_sql (_ensure_single_statement (oracle n)) A).ok = false := by
        rcases hn with h | h
        · exact absurd h hemp
        · exact h
      have hstep : repairLoopGo oracle A maxR (n :: ns) cur iss v atts
          = repairLoopGo oracle A maxR ns (_ensure_single_statement (oracle n))
              (iss ++ (validate_sql (_ensure_single_statement (oracle n)) A).issues.map
                (fun issue => issue.message))
              (validate_sql (_ensure_single_statement (oracle n)) A)
              (atts ++ [{ attempt_number := n
                          original_error := pyReprIssues v.issues
                          repair_prompt := _build_repair_prompt cur (pyReprIssues v.issues)
                            (v.issues.map (fun issue => issue.message))
                          generated_sql := _ensure_single_statement (oracle n)
                          success := (validate_sql (_ensure_single_statement (oracle n)) A).ok }]) := by
        simp only [repairLoopGo, hempF, Bool.false_eq_true, if_false, hvn]
      obtain ⟨newAtts, heq, hmap, hsucc⟩ := ih (_ensure_single_statement (oracle n))
        (iss ++ (validate_sql (_ensure_single_statement (oracle n)) A).issues.map
          (fun issue => issue.message))
        (validate_sql (_ensure_single_statement (oracle n)) A)
        (atts ++ [{ attempt_number := n
                    original_error := pyReprIssues v.issues
                    repair_prompt := _build_repair_prompt cur (pyReprIssues v.issues)
                      (v.issues.map (fun issue => issue.message))
                    generated_sql := _ensure_single_statement (oracle n)
                    success := (validate_sql (_ensure_single_statement (oracle n)) A).ok }]) hns
      refine ⟨{ attempt_number := n
                original_error := pyReprIssues v.issues
                repair_prompt := _build_repair_prompt cur (pyReprIssues v.issues)
                  (v.issues.map (fun issue => issue.message))
                generated_sql := _ensure_single_statement (oracle n)
                success := (validate_sql (_ensure_single_statement (oracle n)) A).ok } :: newAtts,
          ?_, ?_, ?_⟩
      · rw [hstep, heq]
        have hnenil : oracle n ≠ [] := by
          intro hc
          rw [hc] at hempF
          exact absurd hempF (by simp)
        have hcand : finalCandidateSql oracle cur (n :: ns)
            = finalCandidateSql oracle (_ensure_single_statement (oracle n)) ns := by
          simp [finalCandidateSql, hnenil]
        have hacc : accumulatedIssueMessages oracle A iss (n :: ns)
            = accumulatedIssueMessages oracle A
                (iss ++ (validate_sql (_ensure_single_statement (oracle n)) A).issues.map
                  (fun issue => issue.message)) ns := by
          simp [accumulatedIssueMessages, hnenil]
        rw [hcand, hacc, List.append_assoc]
        rfl
      · simpa using hmap
      · intro a ha
        rcases List.mem_cons.mp ha with h | h
        · rw [h]
          exact hvn
        · exact hsucc a h

/-- C5: when the initial validation and every repair validation fail,
`generate_sql` performs exactly `max_repair_attempts` repair rounds and
returns the last candidate SQL, the accumulated issue messages,
`validation_passed = false` with `repair_attempts = max_repair_attempts`,
and a full repair history covering rounds `1..max_repair_attempts`, none
successful. -/
theorem C5_repair_loop_exhaustion (oracle : Nat → Str)
    (decode : Str → Except Str StructuredQuerySpec) (A : List Str) (maxR : Nat)
    (s0 : StructuredQuerySpec)
    (hne : (oracle 0).isEmpty = false)
    (hdec : decode (oracle 0) = Except.ok s0)
    (hv0 : (validate_sql (_ensure_single_statement (_render_sql_from_structure s0)) A).ok
      = false)
    (hall : ∀ n ∈ List.range' 1 maxR, (oracle n).isEmpty = true
        ∨ (validate_sql (_ensure_single_statement (oracle n)) A).ok = false) :
    ∃ hist : List RepairHistEntry,
      generate_sql oracle decode A maxR
        = { sql := finalCandidateSql oracle
              (_ensure_single_statement (_render_sql_from_structure s0)) (List.range' 1 maxR)
            issues := accumulatedIssueMessages oracle A
              ((validate_sql (_ensure_single_statement (_render_sql_from_structure s0)) A).issues.map
                (fun issue => issue.message))
              (List.range' 1 maxR)
            meta := { repair_attempts := maxR
                      validation_passed := false
                      repair_history := some hist } }
      ∧ hist.map (fun e => e.attempt) = List.range' 1 maxR
      ∧ ∀ e ∈ hist, e.success = false := by
  obtain ⟨newAtts, heq, hmap, hsucc⟩ := repairLoop_exhaustion oracle A maxR
    (List.range' 1 maxR)
    (_ensure_single_statement (_render_sql_from_structure s0))
    ((validate_sql (_ensure_single_statement (_render_sql_from_structure s0)) A).issues.map
      (fun issue => issue.message))
    (validate_sql (_ensure_single_statement (_render_sql_from_structure s0)) A)
    [] hall
  refine ⟨newAtts.map (fun attempt =>
      { attempt := attempt.attempt_number
        success := attempt.success
        error := some (truncate200 attempt.original_error) }), ?_, ?_, ?_⟩
  · unfold generate_sql
    simp only [hne, Bool.false_eq_true, if_false, hdec]
    simp only [hv0, Bool.false_eq_true, if_false]
    rw [heq]
    simp
  · rw [List.map_map]
    exact hmap
  · intro e he
    obtain ⟨a, ha, hrfl⟩ := List.mem_map.mp he
    rw [← hrfl]
    exact hsucc a ha

/-- C6: an empty structured-mode response, or one the decode step cannot
turn into a spec, terminates `generate_sql` immediately with the
corresponding issue, `validation_passed = false` and `repair_attempts = 0`,
and no repair history — no repair round is ever attempted. -/
theorem C6_empty_or_unparsable_response_terminates_immediately (oracle : Nat → Str)
    (decode : Str → Except Str StructuredQuerySpec) (A : List Str) (maxR : Nat)
    (h : (oracle 0).isEmpty = true ∨ ∃ e, decode (oracle 0) = Except.error e) :
    (generate_sql oracle decode A maxR).meta.repair_attempts = 0
    ∧ (generate_sql oracle decode A maxR).meta.validation_passed = false
    ∧ (generate_sql oracle decode A maxR).meta.repair_history = none
    ∧ (generate_sql oracle decode A maxR).sql = []
    ∧ ((generate_sql oracle decode A maxR).issues = [str "Empty response from OpenAI API"]
        ∧ (generate_sql oracle decode A maxR).meta.error = some (str "empty_response")
      ∨ ∃ e, decode (oracle 0) = Except.error e
          ∧ (generate_sql oracle decode A maxR).issues
            = [str "Failed to parse structured output: " ++ e]
          ∧ (generate_sql oracle decode A maxR).meta.error = some (str "parse_error")) := by
  by_cases hemp : (oracle 0).isEmpty = true
  · have hg : generate_sql oracle decode A maxR
        = { sql := []
            issues := [str "Empty response from OpenAI API"]
            meta := { repair_attempts := 0
                      validation_passed := false
                      error := some (str "empty_response") } } := by
      unfold generate_sql
      simp only [hemp, if_true]
    rw [hg]
    exact ⟨rfl, rfl, rfl, rfl, Or.inl ⟨rfl, rfl⟩⟩
  · have hempF : (oracle 0).isEmpty = false := by
      cases hc : (oracle 0).isEmpty
      · rfl
      · exact absurd hc hemp
    rcases h with h | ⟨e, hdec⟩
    · exact absurd h hemp
    · have hg : generate_sql oracle decode A maxR
          = { sql := []
              issues := [str "Failed to parse structured output: " ++ e]
              meta := { repair_attempts := 0
                        validation_passed := false
                        error := some (str "parse_error")
                        raw_response := some (truncate500 (oracle 0)) } } := by
        unfold generate_sql
        simp only [hempF, Bool.false_eq_true, if_false, hdec]
      rw [hg]
      exact ⟨rfl, rfl, rfl, rfl, Or.inr ⟨e, hdec, rfl, rfl⟩⟩

/-- C10: a repair round in which the model returns an empty string still
consumes one of the rounds: a `RepairAttempt` for that round with
`generated_sql = \"\"` and `success = false` is appended to the history
while the candidate SQL, the accumulated issues and the last validation
result are passed unchanged to the next round. -/
theorem C10_empty_repair_round_consumes_attempt (oracle : Nat → Str) (A : List Str)
    (maxR n : Nat) (ns : List Nat) (cur : Str) (iss : List Str)
    (v : ValidationResult) (atts : List RepairAttempt)
    (h : (oracle n).isEmpty = true) :
    repairLoopGo oracle A maxR (n :: ns) cur iss v atts
      = repairLoopGo oracle A maxR ns cur iss v
          (atts ++ [{ attempt_number := n
                      original_error := pyReprIssues v.issues
                      repair_prompt := _build_repair_prompt cur (pyReprIssues v.issues)
                        (v.issues.map (fun issue => issue.message))
                      generated_sql := []
                      success := false }]) := by
  simp only [repairLoopGo, h, if_true]

/-- The claim C5 witness spec: renders to SQL referencing a table outside
the allowlist. -/
def c5spec : StructuredQuerySpec :=
  { tables := [{ name := str "Nope" }]
    columns := [{ name := str "x" }]
    order_by := [{ column := str "x", direction := str "asc" }]
    pagination := { offset := 0, fetch_next := 10 } }

/-- The claim C5 witness oracle: a JSON body initially, then repair
responses that always fail validation. -/
def c5oracle : Nat → Str := fun n => if n = 0 then str "{}" else str "DROP TABLE X"

/-- The claim C5 witness decode step: always produces `c5spec`. -/
def c5decode : Str → Except Str StructuredQuerySpec := fun _ => Except.ok c5spec

set_option maxHeartbeats 2000000 in
/-- Witness for C5 at a concrete oracle, decode step, allowlist and three
repair attempts. -/
theorem C5_witness :
    ((c5oracle 0).isEmpty = false
      ∧ c5decode (c5oracle 0) = Except.ok c5spec
      ∧ (validate_sql (_ensure_single_statement (_render_sql_from_structure c5spec))
          [str "dbo.W"]).ok = false
      ∧ ∀ n ∈ List.range' 1 3, (c5oracle n).isEmpty = true
          ∨ (validate_sql (_ensure_single_statement (c5oracle n)) [str "dbo.W"]).ok = false)
    ∧ ∃ hist : List RepairHistEntry,
        generate_sql c5oracle c5decode [str "dbo.W"] 3
          = { sql := finalCandidateSql c5oracle
                (_ensure_single_statement (_render_sql_from_structure c5spec))
                (List.range' 1 3)
              issues := accumulatedIssueMessages c5oracle [str "dbo.W"]
                ((validate_sql (_ensure_single_statement (_render_sql_from_structure c5spec))
                    [str "dbo.W"]).issues.map (fun issue => issue.message))
                (List.range' 1 3)
              meta := { repair_attempts := 3
                        validation_passed := false
                        repair_history := some hist } }
        ∧ hist.map (fun e => e.attempt) = List.range' 1 3
        ∧ ∀ e ∈ hist, e.success = false :=
  ⟨⟨by decide, rfl, by decide, by decide⟩,
   C5_repair_loop_exhaustion c5oracle c5decode [str "dbo.W"] 3 c5spec
     (by decide) rfl (by decide) (by decide)⟩

/-- The claim C6 witness oracle: always returns an empty response. -/
def c6oracle : Nat → Str := fun _ => []

/-- The claim C6 witness decode step: always fails. -/
def c6decode : Str → Except Str StructuredQuerySpec := fun _ => Except.error (str "boom")

/-- Witness for C6 at a concrete oracle returning an empty response. -/
theorem C6_witness :
    ((c6oracle 0).isEmpty = true ∨ ∃ e, c6decode (c6oracle 0) = Except.error e)
    ∧ ((generate_sql c6oracle c6decode [] 3).meta.repair_attempts = 0
      ∧ (generate_sql c6oracle c6decode [] 3).meta.validation_passed = false
      ∧ (generate_sql c6oracle c6decode [] 3).meta.repair_history = none
      ∧ (generate_sql c6oracle c6decode [] 3).sql = []
      ∧ ((generate_sql c6oracle c6decode [] 3).issues = [str "Empty response from OpenAI API"]
          ∧ (generate_sql c6oracle c6decode [] 3).meta.error = some (str "empty_response")
        ∨ ∃ e, c6decode (c6oracle 0) = Except.error e
            ∧ (generate_sql c6oracle c6decode [] 3).issues
              = [str "Failed to parse structured output: " ++ e]
            ∧ (generate_sql c6oracle c6decode [] 3).meta.error = some (str "parse_error"))) :=
  ⟨Or.inl rfl,
   C6_empty_or_unparsable_response_terminates_immediately c6oracle c6decode [] 3 (Or.inl rfl)⟩

/-- The claim C7 witness spec, with a non-empty `order_by`. -/
def c7spec : StructuredQuerySpec :=
  { tables := [{ name := str "Production.Product" }]
    columns := [{ name := str "ProductID" }]
    order_by := [{ column := str "ProductID", direction := str "asc" }]
    pagination := { offset := 0, fetch_next := 20 } }

set_option maxHeartbeats 1000000 in
/-- Witness for C7 at a concrete structured spec. -/
theorem C7_witness :
    c7spec.order_by ≠ []
    ∧ _check_deterministic_requirements (_render_sql_from_structure c7spec) = [] :=
  ⟨by decide, (C7_render_always_orders c7spec (by decide)).2⟩

/-- The claim C10 witness oracle: always returns an empty response. -/
def c10oracle : Nat → Str := fun _ => []

/-- Witness for C10 at round 1 of a three-round loop with an empty response. -/
theorem C10_witness :
    (c10oracle 1).isEmpty = true
    ∧ repairLoopGo c10oracle [] 3 [1, 2, 3] [] []
        { ok := false, issues := [], objects := [] } []
      = repairLoopGo c10oracle [] 3 [2, 3] [] []
          { ok := false, issues := [], objects := [] }
          [{ attempt_number := 1
             original_error := pyReprIssues []
             repair_prompt := _build_repair_prompt [] (pyReprIssues []) []
             generated_sql := []
             success := false }] :=
  ⟨rfl,
   C10_empty_repair_round_consumes_attempt c10oracle [] 3 1 [2, 3] [] []
     { ok := false, issues := [], objects := [] } [] rfl⟩
